import Mathlib

/-
  Verification of the starcoin mock VM core:
  `src/vm/vm-runtime/src/mock_vm.rs` (MockVM::execute_transaction,
  MockVM::create_account, decode_transaction, the transaction encoders) and
  `src/vm/vm-runtime/src/chain_state.rs` (the StateStore adapter).

  Machine integers (`u64`) are modelled as `Nat` with an explicit `% 2 ^ 64`
  at each arithmetic site where the Rust `u64` operation can overflow
  (release-build wrapping semantics); `u64` subtraction only occurs where the
  subtrahend is bounded by the minuend, matching `Nat` subtraction exactly.
  Rust panics (`unwrap`, `expect`, `assert!`, `unimplemented!`) are modelled
  as an `Except` error fatal to the transaction, distinguished from backend
  I/O errors and resource decode errors propagated with `?`.
-/

namespace Starcoin

/-- The modulus of Rust `u64` arithmetic. -/
def u64size : Nat := 2 ^ 64

/-- Account addresses, modelled as naturals. `AccessPath::new_for_account`
maps an address to its canonical account resource path injectively (distinct
addresses give disjoint paths), so resource paths are identified with the
owning address throughout. -/
abbrev AccountAddress := Nat

/-- The canonical per-address ledger record: `balance: u64`,
`sequence_number: u64`, and a fixed-bytes authentication key
(modelled as a natural). -/
structure AccountResource where
  balance : Nat
  sequence_number : Nat
  authentication_key : Nat
  deriving DecidableEq

/-- `AccountResource::new(balance, sequence_number, authentication_key)`. -/
def AccountResource.new (balance sequence_number authentication_key : Nat) :
    AccountResource :=
  ⟨balance, sequence_number, authentication_key⟩

/-- Modelled from the spec: stored blobs (`Vec<u8>`) together with the
resource codec of the `types` crate (`simple_serialize` / `try_into`, not
under `src/`). A blob is either the exact encoding of an account resource or
raw bytes that do not decode; encode/decode round-trip exactly. -/
inductive Blob where
  | resource (r : AccountResource)
  | raw (bytes : List Nat)
  deriving DecidableEq

/-- Modelled from the spec: `encode(AccountResource) -> bytes`. -/
def encodeResource (r : AccountResource) : Blob := Blob.resource r

/-- Modelled from the spec: `decode(bytes) -> Result<AccountResource, DecodeError>`;
it inverts `encodeResource` and fails on any other blob. -/
def decodeResource : Blob → Option AccountResource
  | Blob.resource r => some r
  | Blob.raw _ => none

/-- Failure modes fatal to one transaction's processing: a Rust panic
(`unwrap` / `expect` / `assert!` / `unimplemented!`), a backend I/O error
propagated with `?`, and a resource decode failure propagated with `?`. -/
inductive VMError where
  | panicked
  | backendErr
  | decodeErr
  deriving DecidableEq

/-- A `StateSet` bulk payload: the full backend content it installs. -/
abbrev StateSetPayload := AccountAddress → Option Blob

/-- Modelled from the spec: the backend `ChainState` collaborator (the
`traits` crate, not under `src/`): a key-value store over resource paths with
operations get/set/delete plus the bulk `apply`, each of which can fail with
a backend I/O error. The `Fails` flags say which calls fail; a failing call
is per-call atomic and leaves the content unchanged. -/
structure ChainStateModel where
  contents : AccountAddress → Option Blob
  getFails : AccountAddress → Bool
  setFails : AccountAddress → Bool
  deleteFails : AccountAddress → Bool
  applyFails : Bool

/-- Backend `ChainState::get`. -/
def chainGet (s : ChainStateModel) (a : AccountAddress) :
    Except VMError (Option Blob) :=
  if s.getFails a then Except.error VMError.backendErr
  else Except.ok (s.contents a)

/-- Backend `ChainState::set`: upsert of a blob at a path. -/
def chainSet (s : ChainStateModel) (a : AccountAddress) (b : Blob) :
    Except VMError ChainStateModel :=
  if s.setFails a then Except.error VMError.backendErr
  else Except.ok { s with contents := fun x => if x = a then some b else s.contents x }

/-- Backend `ChainState::delete`. -/
def chainDelete (s : ChainStateModel) (a : AccountAddress) :
    Except VMError ChainStateModel :=
  if s.deleteFails a then Except.error VMError.backendErr
  else Except.ok { s with contents := fun x => if x = a then none else s.contents x }

/-- Backend `ChainState::apply` for a `StateSet` bulk payload: installs the
payload wholesale (all-or-nothing), bypassing the per-resource codec. -/
def chainApply (s : ChainStateModel) (p : StateSetPayload) :
    Except VMError ChainStateModel :=
  if s.applyFails then Except.error VMError.backendErr
  else Except.ok { s with contents := p }

/-- `StateStore::set` (chain_state.rs): delegates to the backend. -/
def StateStore.set (s : ChainStateModel) (a : AccountAddress) (b : Blob) :
    Except VMError ChainStateModel :=
  chainSet s a b

/-- `StateStore::remove` (chain_state.rs): delegates to the backend. -/
def StateStore.remove (s : ChainStateModel) (a : AccountAddress) :
    Except VMError ChainStateModel :=
  chainDelete s a

/-- `StateStore::get_from_statedb` — called from mock_vm.rs; its body is not
under `src/`. Modelled from the spec contract of `get(path)`: returns the
current blob or `None`, failing only on backend I/O error. -/
def StateStore.get_from_statedb (s : ChainStateModel) (a : AccountAddress) :
    Except VMError (Option Blob) :=
  chainGet s a

/-- A write operation of a write set: `Value(blob)` or `Deletion`. -/
inductive WriteOp where
  | Value (blob : Blob)
  | Deletion
  deriving DecidableEq

/-- A write set: ordered pairs of access path and write operation. -/
abbrev WriteSet := List (AccountAddress × WriteOp)

/-- `StateStore::add_write_set` (chain_state.rs): iterates the write set in
order; a `Value` entry invokes `set`, a `Deletion` entry invokes `remove`.
The `Result` of each `set`/`remove` call is discarded by the trailing
semicolon in the source, so a failing operation leaves the store unchanged
and iteration continues with the next operation; the function returns unit
(here: just the final store) and reports no error. -/
def StateStore.add_write_set (s : ChainStateModel) (ws : WriteSet) :
    ChainStateModel :=
  ws.foldl
    (fun st p =>
      match p.2 with
      | WriteOp.Value blob =>
        match StateStore.set st p.1 blob with
        | Except.ok st1 => st1
        | Except.error _ => st
      | WriteOp.Deletion =>
        match StateStore.remove st p.1 with
        | Except.ok st1 => st1
        | Except.error _ => st)
    s

/-- Modelled from the spec: the fresh account's authentication key is a
deterministic function of its address. -/
def authKeyOf (a : AccountAddress) : Nat := a

/-- `StateStore::create_account` — called from mock_vm.rs; its body is not
under `src/`. Modelled from the spec (§4.3): constructs the canonical account
resource path for the address and, if absent, writes a fresh
`AccountResource{balance:0, sequence_number:0, authentication_key}` through
the adapter; on an address that already has a resource it is a no-op. -/
def StateStore.create_account (s : ChainStateModel) (a : AccountAddress) :
    Except VMError ChainStateModel :=
  match s.contents a with
  | some _ => Except.ok s
  | none => StateStore.set s a (encodeResource (AccountResource.new 0 0 (authKeyOf a)))

/-- Status codes of vm_error::StatusCode used by the mock VM. -/
inductive StatusCode where
  | EXECUTED
  | ABORTED
  deriving DecidableEq

/-- `VMStatus`: a major status code with an optional sub-status. -/
structure VMStatus where
  major_status : StatusCode
  sub_status : Option Nat
  deriving DecidableEq

/-- `VMStatus::new(code)`. -/
def VMStatus.new (code : StatusCode) : VMStatus := ⟨code, none⟩

/-- `VMStatus::with_sub_status(sub)`. -/
def VMStatus.with_sub_status (v : VMStatus) (sub : Nat) : VMStatus :=
  { v with sub_status := some sub }

/-- `TransactionStatus`: keep the transaction in the ledger or discard it. -/
inductive TransactionStatus where
  | Keep (status : VMStatus)
  | Discard (status : VMStatus)
  deriving DecidableEq

/-- `KEEP_STATUS`: `Keep(VMStatus::new(EXECUTED))`. -/
def KEEP_STATUS : TransactionStatus :=
  TransactionStatus.Keep (VMStatus.new StatusCode.EXECUTED)

/-- `DISCARD_STATUS`: `Discard(VMStatus::new(ABORTED).with_sub_status(10))`. -/
def DISCARD_STATUS : TransactionStatus :=
  TransactionStatus.Discard ((VMStatus.new StatusCode.ABORTED).with_sub_status 10)

/-- `TransactionOutput`: write set, gas used, and status. -/
structure TransactionOutput where
  write_set : WriteSet
  gas_used : Nat
  status : TransactionStatus
  deriving DecidableEq

/-- `TransactionOutput::new(write_set, gas_used, status)`. -/
def TransactionOutput.new (ws : WriteSet) (gas : Nat) (st : TransactionStatus) :
    TransactionOutput :=
  ⟨ws, gas, st⟩

/-- Script arguments of the `types` crate used by the decoder. -/
inductive TransactionArgument where
  | U64 (amount : Nat)
  | Address (addr : AccountAddress)
  | U8Vector (bytes : List Nat)
  deriving DecidableEq

/-- A transaction script: executable code bytes and arguments. -/
structure Script where
  code : List Nat
  args : List TransactionArgument
  deriving DecidableEq

/-- `Script::new(code, args)`. -/
def Script.new (code : List Nat) (args : List TransactionArgument) : Script :=
  ⟨code, args⟩

/-- `TransactionPayload`: script, module, or bulk state set. -/
inductive TransactionPayload where
  | Script (script : Script)
  | Module (code : List Nat)
  | StateSet (payload : StateSetPayload)

/-- A signed user transaction: the sender address and the payload (the
signature and gas fields are irrelevant to the mock VM and omitted). -/
structure SignedUserTransaction where
  sender : AccountAddress
  payload : TransactionPayload

/-- `Transaction`: user transaction, block metadata (carrying the block
proposer's address), or bulk state set. -/
inductive Transaction where
  | UserTransaction (txn : SignedUserTransaction)
  | BlockMetadata (author : AccountAddress)
  | StateSet (payload : StateSetPayload)

/-- The closed operation variants of the mock VM. -/
inductive MockTransaction where
  | Mint (sender : AccountAddress) (amount : Nat)
  | Payment (sender recipient : AccountAddress) (amount : Nat)

/-- `decode_transaction` (mock_vm.rs): classifies a signed user transaction.
Only a script payload with empty code and either one `U64` argument (Mint) or
an `Address` followed by a `U64` (Payment) is accepted; every other shape
hits an `assert!` or `unimplemented!` panic. -/
def decode_transaction (txn : SignedUserTransaction) :
    Except VMError MockTransaction :=
  match txn.payload with
  | TransactionPayload.Script script =>
    if script.code = [] then
      match script.args with
      | [arg] =>
        match arg with
        | TransactionArgument.U64 amount =>
          Except.ok (MockTransaction.Mint txn.sender amount)
        | _ => Except.error VMError.panicked
      | [arg1, arg2] =>
        match arg1, arg2 with
        | TransactionArgument.Address recipient, TransactionArgument.U64 amount =>
          Except.ok (MockTransaction.Payment txn.sender recipient amount)
        | _, _ => Except.error VMError.panicked
      | _ => Except.error VMError.panicked
    else Except.error VMError.panicked
  | TransactionPayload.Module _ => Except.error VMError.panicked
  | TransactionPayload.StateSet _ => Except.error VMError.panicked

/-- `encode_mint_program(amount)`. -/
def encode_mint_program (amount : Nat) : Script :=
  Script.new [] [TransactionArgument.U64 amount]

/-- `encode_transfer_program(recipient, amount)`. -/
def encode_transfer_program (recipient : AccountAddress) (amount : Nat) : Script :=
  Script.new [] [TransactionArgument.Address recipient, TransactionArgument.U64 amount]

/-- `encode_transaction(sender, program)` (signing is external and omitted). -/
def encode_transaction (sender : AccountAddress) (program : Script) : Transaction :=
  Transaction.UserTransaction ⟨sender, TransactionPayload.Script program⟩

/-- `encode_mint_transaction(sender, amount)`. -/
def encode_mint_transaction (sender : AccountAddress) (amount : Nat) : Transaction :=
  encode_transaction sender (encode_mint_program amount)

/-- `encode_transfer_transaction(sender, recipient, amount)`. -/
def encode_transfer_transaction (sender recipient : AccountAddress) (amount : Nat) :
    Transaction :=
  encode_transaction sender (encode_transfer_program recipient amount)

/-- The receiver/author lookup pattern of `execute_transaction`:
`get_from_statedb(path).and_then(...)` where the `None` arm calls
`create_account` and re-reads with `expect("account resource must exist.")`.
Returns the threaded store together with the blob or the propagated error. -/
def get_or_create (state : ChainStateModel) (addr : AccountAddress) :
    ChainStateModel × Except VMError Blob :=
  match StateStore.get_from_statedb state addr with
  | Except.error e => (state, Except.error e)
  | Except.ok (some blob) => (state, Except.ok blob)
  | Except.ok none =>
    match StateStore.create_account state addr with
    | Except.error e => (state, Except.error e)
    | Except.ok state1 =>
      match StateStore.get_from_statedb state1 addr with
      | Except.error e => (state1, Except.error e)
      | Except.ok none => (state1, Except.error VMError.panicked)
      | Except.ok (some blob) => (state1, Except.ok blob)

/-- `MockVM::execute_transaction` (mock_vm.rs): the whole per-transaction
state machine. Returns the final backend content (the backend is mutated in
place in the source, so it is threaded through every path, error paths
included) together with the transaction output or the fatal error. -/
def execute_transaction (state : ChainStateModel) (txn : Transaction) :
    ChainStateModel × Except VMError TransactionOutput :=
  match txn with
  | Transaction.UserTransaction utxn =>
    match decode_transaction utxn with
    | Except.error e => (state, Except.error e)
    | Except.ok (MockTransaction.Mint sender amount) =>
      match StateStore.get_from_statedb state sender with
      | Except.error e => (state, Except.error e)
      | Except.ok none => (state, Except.error VMError.panicked)
      | Except.ok (some blob) =>
        match decodeResource blob with
        | none => (state, Except.error VMError.decodeErr)
        | some account_resource =>
          let new_account_resource :=
            AccountResource.new amount 1 account_resource.authentication_key
          match StateStore.set state sender (encodeResource new_account_resource) with
          | Except.error _ => (state, Except.error VMError.panicked)
          | Except.ok state1 =>
            (state1, Except.ok (TransactionOutput.new [] 0 KEEP_STATUS))
    | Except.ok (MockTransaction.Payment sender recipient amount) =>
      match StateStore.get_from_statedb state sender with
      | Except.error e => (state, Except.error e)
      | Except.ok none => (state, Except.error VMError.panicked)
      | Except.ok (some blobSender) =>
        match decodeResource blobSender with
        | none => (state, Except.error VMError.decodeErr)
        | some account_resource_sender =>
          match get_or_create state recipient with
          | (state1, Except.error e) => (state1, Except.error e)
          | (state1, Except.ok blobReceiver) =>
            match decodeResource blobReceiver with
            | none => (state1, Except.error VMError.decodeErr)
            | some account_resource_receiver =>
              let balance_sender := account_resource_sender.balance
              let balance_receiver := account_resource_receiver.balance
              let deduction :=
                if balance_sender < amount then balance_sender else amount
              let new_account_resource_sender :=
                AccountResource.new (balance_sender - deduction)
                  ((account_resource_sender.sequence_number + 1) % u64size)
                  account_resource_sender.authentication_key
              let new_account_resource_receiver :=
                AccountResource.new ((balance_receiver + deduction) % u64size)
                  account_resource_sender.sequence_number
                  account_resource_receiver.authentication_key
              match StateStore.set state1 sender
                  (encodeResource new_account_resource_sender) with
              | Except.error e => (state1, Except.error e)
              | Except.ok state2 =>
                match StateStore.set state2 recipient
                    (encodeResource new_account_resource_receiver) with
                | Except.error e => (state2, Except.error e)
                | Except.ok state3 =>
                  (state3, Except.ok (TransactionOutput.new [] 0
                    (TransactionStatus.Keep (VMStatus.new StatusCode.EXECUTED))))
  | Transaction.BlockMetadata author =>
    match get_or_create state author with
    | (state1, Except.error e) => (state1, Except.error e)
    | (state1, Except.ok blob) =>
      match decodeResource blob with
      | none => (state1, Except.error VMError.decodeErr)
      | some account_resource =>
        let new_account_resource :=
          AccountResource.new ((account_resource.balance + 5000000000) % u64size)
            account_resource.sequence_number
            account_resource.authentication_key
        match StateStore.set state1 author (encodeResource new_account_resource) with
        | Except.error e => (state1, Except.error e)
        | Except.ok state2 =>
          (state2, Except.ok (TransactionOutput.new [] 0 KEEP_STATUS))
  | Transaction.StateSet payload =>
    match chainApply state payload with
    | Except.ok state1 =>
      (state1, Except.ok (TransactionOutput.new [] 0 KEEP_STATUS))
    | Except.error _ =>
      (state, Except.ok (TransactionOutput.new [] 0 DISCARD_STATUS))

/-- `MockVM::create_account` (mock_vm.rs): wraps the chain state in a
`StateStore` and delegates to `StateStore::create_account`. -/
def MockVM.create_account (state : ChainStateModel) (a : AccountAddress) :
    Except VMError ChainStateModel :=
  StateStore.create_account state a

/-- The decoded account resource stored at an address, if any. -/
def resourceAt (s : ChainStateModel) (a : AccountAddress) : Option AccountResource :=
  match s.contents a with
  | some blob => decodeResource blob
  | none => none

/-- The stored balance at an address, if a resource decodes there. -/
def balanceAt (s : ChainStateModel) (a : AccountAddress) : Option Nat :=
  (resourceAt s a).map AccountResource.balance

/-- The stored sequence number at an address, if a resource decodes there. -/
def seqNumAt (s : ChainStateModel) (a : AccountAddress) : Option Nat :=
  (resourceAt s a).map AccountResource.sequence_number

/-- A healthy backend (no I/O failures anywhere) holding given contents. -/
def mkChain (contents : AccountAddress → Option Blob) : ChainStateModel :=
  ⟨contents, fun _ => false, fun _ => false, fun _ => false, false⟩

/-- A backend holding a sender resource `{balance:10, seq:5, key:7}` at
address 1 and nothing else, for the mint scenario. -/
def mintDemoChain : ChainStateModel :=
  mkChain (fun a => if a = 1 then some (Blob.resource ⟨10, 5, 7⟩) else none)

/-- C2: a `Mint{sender, amount}` on an existing sender replaces the balance
with exactly `amount` and the sequence number with exactly `1` (whatever the
prior values were), keeps the authentication key, and the outcome status is
`Keep(EXECUTED)`. -/
theorem claim2_mint_sets_exactly
    (s : ChainStateModel) (sender amount : Nat) (r : AccountResource)
    (hS : s.contents sender = some (Blob.resource r))
    (hg : s.getFails sender = false) (hs : s.setFails sender = false) :
    resourceAt (execute_transaction s (encode_mint_transaction sender amount)).1 sender
      = some (AccountResource.new amount 1 r.authentication_key) ∧
    (execute_transaction s (encode_mint_transaction sender amount)).2
      = Except.ok (TransactionOutput.new [] 0 KEEP_STATUS) := by
  simp [execute_transaction, encode_mint_transaction, encode_transaction,
    encode_mint_program, Script.new, decode_transaction,
    StateStore.get_from_statedb, chainGet, StateStore.set, chainSet,
    decodeResource, encodeResource, resourceAt, hS, hg, hs]

/-- C2 witness: the spec scenario — mint 500 on a sender with prior
`{balance:10, seq:5}` yields `{balance:500, seq:1}` with the key kept. -/
theorem claim2_mint_sets_exactly_witness :
    resourceAt (execute_transaction mintDemoChain (encode_mint_transaction 1 500)).1 1
      = some (AccountResource.new 500 1 7) ∧
    (execute_transaction mintDemoChain (encode_mint_transaction 1 500)).2
      = Except.ok (TransactionOutput.new [] 0 KEEP_STATUS) :=
  claim2_mint_sets_exactly mintDemoChain 1 500 ⟨10, 5, 7⟩ (by decide) rfl rfl

/-- A funded account resource `{balance:42, seq:3, key:7}` at address 1. -/
def fundedChain : ChainStateModel :=
  mkChain (fun a => if a = 1 then some (Blob.resource ⟨42, 3, 7⟩) else none)

/-- C6: invoking `create_account` on an address that already has a resource
is a no-op: the store (in particular any non-zero stored balance) is left
unchanged. -/
theorem claim6_create_account_noop
    (s : ChainStateModel) (a : AccountAddress) (blob : Blob)
    (h : s.contents a = some blob) :
    MockVM.create_account s a = Except.ok s := by
  simp [MockVM.create_account, StateStore.create_account, h]

/-- C6 witness: double-creation of the funded account at address 1 (balance
42) returns the store unchanged. -/
theorem claim6_create_account_noop_witness :
    MockVM.create_account fundedChain 1 = Except.ok fundedChain :=
  claim6_create_account_noop fundedChain 1 (Blob.resource ⟨42, 3, 7⟩) (by decide)

/-- C7: a `Mint` whose sender has no account resource fails (the `unwrap` of
the `None` lookup, fatal to this transaction) and the backend is returned
exactly as it was — no default or funded account is synthesized. -/
theorem claim7_mint_missing_sender
    (s : ChainStateModel) (sender amount : Nat)
    (habs : s.contents sender = none)
    (hg : s.getFails sender = false) :
    execute_transaction s (encode_mint_transaction sender amount)
      = (s, Except.error VMError.panicked) := by
  simp [execute_transaction, encode_mint_transaction, encode_transaction,
    encode_mint_program, Script.new, decode_transaction,
    StateStore.get_from_statedb, chainGet, habs, hg]

/-- A backend with no account resources at all. -/
def emptyChain : ChainStateModel := mkChain (fun _ => none)

/-- C7 witness: minting 5 to the nonexistent sender 1 on the empty backend
errors out and leaves the backend untouched. -/
theorem claim7_mint_missing_sender_witness :
    execute_transaction emptyChain (encode_mint_transaction 1 5)
      = (emptyChain, Except.error VMError.panicked) :=
  claim7_mint_missing_sender emptyChain 1 5 rfl rfl

/-- C9: whenever the decoder rejects a user transaction's payload shape, the
whole execution rejects it with the same error and the backend is returned
exactly as it was — no resource changes as a side effect. -/
theorem claim9_reject_no_mutation
    (s : ChainStateModel) (utxn : SignedUserTransaction) (e : VMError)
    (h : decode_transaction utxn = Except.error e) :
    execute_transaction s (Transaction.UserTransaction utxn) = (s, Except.error e) := by
  simp [execute_transaction, h]

/-- A user transaction whose script carries three arguments — an unsupported
shape the decoder rejects. -/
def threeArgTxn : SignedUserTransaction :=
  ⟨1, TransactionPayload.Script (Script.new []
    [TransactionArgument.U64 1, TransactionArgument.U64 2, TransactionArgument.U64 3])⟩

/-- C9 witness: the three-argument script is rejected and the funded backend
comes back unchanged. -/
theorem claim9_reject_no_mutation_witness :
    execute_transaction fundedChain (Transaction.UserTransaction threeArgTxn)
      = (fundedChain, Except.error VMError.panicked) :=
  claim9_reject_no_mutation fundedChain threeArgTxn VMError.panicked rfl

/-- The Rust deduction `if balance < amount { balance } else { amount }`
equals `min amount balance`. -/
theorem deduction_eq_min (balance amount : Nat) :
    (if balance < amount then balance else amount) = min amount balance := by
  rcases Nat.lt_or_ge balance amount with h | h
  · simp [Nat.min_def, h, Nat.le_of_lt h]
  · simp [Nat.min_def, h]

/-- C1 counterexample: with sender = recipient (one account, balance 100), a
payment of 50 leaves the stored balance at 150, not at the
`S - min(amount, S) = 50` the claim asserts for the sender. -/
theorem claim1_counterexample :
    balanceAt
      (execute_transaction
        (mkChain (fun a => if a = 1 then some (Blob.resource ⟨100, 0, 7⟩) else none))
        (encode_transfer_transaction 1 1 50)).1 1
      ≠ some (100 - min 50 100) := by
  decide

/-- C1 (amended): for a payment between two distinct existing accounts with
balances `S` and `R`, provided the credited balance `R + min(amount, S)`
fits in a u64, the post-state sender balance is `S - min(amount, S)`, the
recipient balance is `R + min(amount, S)` (so the sender never goes
negative), and the sender-plus-recipient total is conserved. -/
theorem claim1_payment_conservation
    (s : ChainStateModel) (sender recipient amount : Nat) (rS rR : AccountResource)
    (hne : sender ≠ recipient)
    (hS : s.contents sender = some (Blob.resource rS))
    (hR : s.contents recipient = some (Blob.resource rR))
    (hgS : s.getFails sender = false) (hgR : s.getFails recipient = false)
    (hsS : s.setFails sender = false) (hsR : s.setFails recipient = false)
    (hbound : rR.balance + min amount rS.balance < u64size) :
    balanceAt (execute_transaction s
        (encode_transfer_transaction sender recipient amount)).1 sender
      = some (rS.balance - min amount rS.balance) ∧
    balanceAt (execute_transaction s
        (encode_transfer_transaction sender recipient amount)).1 recipient
      = some (rR.balance + min amount rS.balance) ∧
    (rS.balance - min amount rS.balance) + (rR.balance + min amount rS.balance)
      = rS.balance + rR.balance := by
  have hmin : min amount rS.balance ≤ rS.balance := Nat.min_le_right amount rS.balance
  refine ⟨?_, ?_, by omega⟩ <;>
    simp [execute_transaction, encode_transfer_transaction, encode_transaction,
      encode_transfer_program, Script.new, decode_transaction, get_or_create,
      StateStore.get_from_statedb, chainGet, StateStore.set, chainSet,
      decodeResource, encodeResource, resourceAt, balanceAt, AccountResource.new,
      deduction_eq_min, hS, hR, hgS, hgR, hsS, hsR, hne, Ne.symm hne,
      Nat.mod_eq_of_lt hbound]

/-- A backend with sender `{balance:100, seq:0, key:7}` at address 1 and
recipient `{balance:5, seq:3, key:9}` at address 2. -/
def payDemoChain : ChainStateModel :=
  mkChain (fun a =>
    if a = 1 then some (Blob.resource ⟨100, 0, 7⟩)
    else if a = 2 then some (Blob.resource ⟨5, 3, 9⟩) else none)

/-- C1 witness: paying 30 from address 1 (balance 100) to address 2
(balance 5) leaves balances 70 and 35, conserving the total of 105. -/
theorem claim1_payment_conservation_witness :
    balanceAt (execute_transaction payDemoChain
        (encode_transfer_transaction 1 2 30)).1 1 = some (100 - min 30 100) ∧
    balanceAt (execute_transaction payDemoChain
        (encode_transfer_transaction 1 2 30)).1 2 = some (5 + min 30 100) ∧
    (100 - min 30 100) + (5 + min 30 100) = 100 + 5 :=
  claim1_payment_conservation payDemoChain 1 2 30 ⟨100, 0, 7⟩ ⟨5, 3, 9⟩
    (by decide) (by decide) (by decide) rfl rfl rfl rfl (by decide)

/-- C10 counterexample: a self-payment of 1 from an account holding
`u64::MAX` wraps the stored balance to 0 instead of the
`B + min(amount, B) = 2^64` the claim asserts. -/
theorem claim10_counterexample :
    balanceAt
      (execute_transaction
        (mkChain (fun a => if a = 1 then some (Blob.resource ⟨u64size - 1, 0, 7⟩) else none))
        (encode_transfer_transaction 1 1 1)).1 1
      ≠ some ((u64size - 1) + min 1 (u64size - 1)) := by
  decide

/-- C10 (amended): for a self-payment on an existing account with balance `B`
and sequence number `N`, provided `B + min(amount, B)` fits in a u64, the
recipient-update (written second to the same path) wins: the final resource
has balance `B + min(amount, B)` and sequence number `N` unchanged, and the
outcome status is `Keep(EXECUTED)`. -/
theorem claim10_self_payment
    (s : ChainStateModel) (a amount : Nat) (r : AccountResource)
    (hS : s.contents a = some (Blob.resource r))
    (hg : s.getFails a = false) (hs : s.setFails a = false)
    (hbound : r.balance + min amount r.balance < u64size) :
    resourceAt (execute_transaction s (encode_transfer_transaction a a amount)).1 a
      = some (AccountResource.new (r.balance + min amount r.balance)
          r.sequence_number r.authentication_key) ∧
    (execute_transaction s (encode_transfer_transaction a a amount)).2
      = Except.ok (TransactionOutput.new [] 0
          (TransactionStatus.Keep (VMStatus.new StatusCode.EXECUTED))) := by
  constructor <;>
    simp [execute_transaction, encode_transfer_transaction, encode_transaction,
      encode_transfer_program, Script.new, decode_transaction, get_or_create,
      StateStore.get_from_statedb, chainGet, StateStore.set, chainSet,
      decodeResource, encodeResource, resourceAt, AccountResource.new,
      deduction_eq_min, hS, hg, hs, Nat.mod_eq_of_lt hbound]

/-- A single account `{balance:100, seq:4, key:7}` at address 1. -/
def selfPayChain : ChainStateModel :=
  mkChain (fun a => if a = 1 then some (Blob.resource ⟨100, 4, 7⟩) else none)

/-- C10 witness: a self-payment of 30 on balance 100 stores balance 130 with
the sequence number still 4, and the transaction is kept as executed. -/
theorem claim10_self_payment_witness :
    resourceAt (execute_transaction selfPayChain
        (encode_transfer_transaction 1 1 30)).1 1
      = some (AccountResource.new (100 + min 30 100) 4 7) ∧
    (execute_transaction selfPayChain (encode_transfer_transaction 1 1 30)).2
      = Except.ok (TransactionOutput.new [] 0
          (TransactionStatus.Keep (VMStatus.new StatusCode.EXECUTED))) :=
  claim10_self_payment selfPayChain 1 30 ⟨100, 4, 7⟩ (by decide) rfl rfl (by decide)

/-- C3 counterexample: paying from a sender whose sequence number is
`u64::MAX` (recipient absent) wraps the stored sender sequence number to 0
instead of the prior-plus-one the claim asserts. -/
theorem claim3_counterexample :
    seqNumAt
      (execute_transaction
        (mkChain (fun a => if a = 1 then some (Blob.resource ⟨100, u64size - 1, 7⟩) else none))
        (encode_transfer_transaction 1 2 150)).1 1
      ≠ some ((u64size - 1) + 1) := by
  decide

/-- C3 (amended): a payment to an address with no resource first creates one;
afterwards the recipient's resource exists with balance equal to the deducted
`min(amount, S)` and sequence number equal to the sender's pre-increment
sequence number, and — provided the sender's incremented sequence number fits
in a u64 — the sender's sequence number is incremented by 1 (its balance
dropping to `S - min(amount, S)`). -/
theorem claim3_payment_creates_recipient
    (s : ChainStateModel) (sender recipient amount : Nat) (r : AccountResource)
    (hS : s.contents sender = some (Blob.resource r))
    (hR : s.contents recipient = none)
    (hgS : s.getFails sender = false) (hgR : s.getFails recipient = false)
    (hsS : s.setFails sender = false) (hsR : s.setFails recipient = false)
    (hbal : r.balance < u64size)
    (hseq : r.sequence_number + 1 < u64size) :
    resourceAt (execute_transaction s
        (encode_transfer_transaction sender recipient amount)).1 recipient
      = some (AccountResource.new (min amount r.balance) r.sequence_number
          (authKeyOf recipient)) ∧
    resourceAt (execute_transaction s
        (encode_transfer_transaction sender recipient amount)).1 sender
      = some (AccountResource.new (r.balance - min amount r.balance)
          (r.sequence_number + 1) r.authentication_key) ∧
    (execute_transaction s (encode_transfer_transaction sender recipient amount)).2
      = Except.ok (TransactionOutput.new [] 0
          (TransactionStatus.Keep (VMStatus.new StatusCode.EXECUTED))) := by
  have hne : sender ≠ recipient := by
    intro h
    rw [h, hR] at hS
    exact Option.noConfusion hS
  have hdlt : min amount r.balance < u64size :=
    Nat.lt_of_le_of_lt (Nat.min_le_right amount r.balance) hbal
  refine ⟨?_, ?_, ?_⟩ <;>
    simp [execute_transaction, encode_transfer_transaction, encode_transaction,
      encode_transfer_program, Script.new, decode_transaction, get_or_create,
      StateStore.get_from_statedb, chainGet, StateStore.set, chainSet,
      StateStore.create_account, decodeResource, encodeResource, resourceAt,
      AccountResource.new, deduction_eq_min, hS, hR, hgS, hgR, hsS, hsR, hne,
      Ne.symm hne, Nat.mod_eq_of_lt hdlt, Nat.mod_eq_of_lt hseq]

/-- A backend holding only the sender `{balance:100, seq:0, key:7}` at
address 1, for the auto-creation scenario. -/
def createDemoChain : ChainStateModel :=
  mkChain (fun a => if a = 1 then some (Blob.resource ⟨100, 0, 7⟩) else none)

/-- C3 witness: the spec scenario — paying 150 from `{balance:100, seq:0}` to
the unseen address 2 yields sender `{balance:0, seq:1}` and recipient
`{balance:100, seq:0}`, kept as executed. -/
theorem claim3_payment_creates_recipient_witness :
    resourceAt (execute_transaction createDemoChain
        (encode_transfer_transaction 1 2 150)).1 2
      = some (AccountResource.new (min 150 100) 0 (authKeyOf 2)) ∧
    resourceAt (execute_transaction createDemoChain
        (encode_transfer_transaction 1 2 150)).1 1
      = some (AccountResource.new (100 - min 150 100) (0 + 1) 7) ∧
    (execute_transaction createDemoChain (encode_transfer_transaction 1 2 150)).2
      = Except.ok (TransactionOutput.new [] 0
          (TransactionStatus.Keep (VMStatus.new StatusCode.EXECUTED))) :=
  claim3_payment_creates_recipient createDemoChain 1 2 150 ⟨100, 0, 7⟩
    (by decide) (by decide) rfl rfl rfl rfl (by decide) (by decide)

/-- C5 counterexample: a block-metadata reward to an author holding
`u64::MAX` wraps the stored balance to `4999999999` instead of increasing it
by exactly 5000000000 as the claim asserts. -/
theorem claim5_counterexample :
    balanceAt
      (execute_transaction
        (mkChain (fun a => if a = 1 then some (Blob.resource ⟨u64size - 1, 3, 7⟩) else none))
        (Transaction.BlockMetadata 1)).1 1
      ≠ some ((u64size - 1) + 5000000000) := by
  decide

/-- C5 (amended): a block-metadata transaction credits the author's balance
by exactly 5000000000 base units with the sequence number unchanged and
outcome `Keep(EXECUTED)` — whether the author's resource already exists
(provided the credited balance fits in a u64) or is created on demand
(starting from balance 0, sequence number 0). -/
theorem claim5_block_reward
    (s : ChainStateModel) (author : AccountAddress)
    (hg : s.getFails author = false) (hs : s.setFails author = false) :
    (∀ r : AccountResource, s.contents author = some (Blob.resource r) →
      r.balance + 5000000000 < u64size →
      resourceAt (execute_transaction s (Transaction.BlockMetadata author)).1 author
        = some (AccountResource.new (r.balance + 5000000000) r.sequence_number
            r.authentication_key) ∧
      (execute_transaction s (Transaction.BlockMetadata author)).2
        = Except.ok (TransactionOutput.new [] 0 KEEP_STATUS)) ∧
    (s.contents author = none →
      resourceAt (execute_transaction s (Transaction.BlockMetadata author)).1 author
        = some (AccountResource.new (0 + 5000000000) 0 (authKeyOf author)) ∧
      (execute_transaction s (Transaction.BlockMetadata author)).2
        = Except.ok (TransactionOutput.new [] 0 KEEP_STATUS)) := by
  constructor
  · intro r hr hbound
    constructor <;>
      simp [execute_transaction, get_or_create, StateStore.get_from_statedb,
        chainGet, StateStore.set, chainSet, StateStore.create_account,
        decodeResource, encodeResource, resourceAt, AccountResource.new,
        hr, hg, hs, Nat.mod_eq_of_lt hbound]
  · intro habs
    have hbound : (0 : Nat) + 5000000000 < u64size := by decide
    constructor <;>
      simp [execute_transaction, get_or_create, StateStore.get_from_statedb,
        chainGet, StateStore.set, chainSet, StateStore.create_account,
        decodeResource, encodeResource, resourceAt, AccountResource.new,
        habs, hg, hs, Nat.mod_eq_of_lt hbound]

/-- C5 witness: rewarding the existing author `{balance:42, seq:3}` at
address 1 stores `{balance:42 + 5000000000, seq:3}` and keeps the
transaction; the hypotheses hold for the funded demo backend. -/
theorem claim5_block_reward_witness :
    resourceAt (execute_transaction fundedChain (Transaction.BlockMetadata 1)).1 1
      = some (AccountResource.new (42 + 5000000000) 3 7) ∧
    (execute_transaction fundedChain (Transaction.BlockMetadata 1)).2
      = Except.ok (TransactionOutput.new [] 0 KEEP_STATUS) :=
  (claim5_block_reward fundedChain 1 rfl rfl).1 ⟨42, 3, 7⟩ (by decide) (by decide)

/-- C4: a `StateSet` transaction yields `Keep(EXECUTED)` when the backend
bulk-apply succeeds and `Discard(ABORTED, sub_status 10)` when it fails; the
backend failure is absorbed into the status — `execute_transaction` still
returns a well-formed output, not an error — and a `StateSet` with a failing
bulk-apply is the only way any transaction produces a `Discard` status. -/
theorem claim4_stateset_discard :
    (∀ (s : ChainStateModel) (p : StateSetPayload),
      (s.applyFails = false →
        execute_transaction s (Transaction.StateSet p)
          = ({ s with contents := p },
             Except.ok (TransactionOutput.new [] 0 KEEP_STATUS))) ∧
      (s.applyFails = true →
        execute_transaction s (Transaction.StateSet p)
          = (s, Except.ok (TransactionOutput.new [] 0 DISCARD_STATUS)))) ∧
    (∀ (s : ChainStateModel) (txn : Transaction) (out : TransactionOutput)
      (v : VMStatus),
      (execute_transaction s txn).2 = Except.ok out →
      out.status = TransactionStatus.Discard v →
      (∃ p, txn = Transaction.StateSet p) ∧ s.applyFails = true ∧
        v = (VMStatus.new StatusCode.ABORTED).with_sub_status 10) := by
  constructor
  · intro s p
    constructor <;> intro h <;> simp [execute_transaction, chainApply, h]
  · intro s txn out v h hv
    cases txn with
    | UserTransaction u =>
      exfalso
      simp only [execute_transaction] at h
      repeat' split at h
      all_goals
        simp_all [KEEP_STATUS, DISCARD_STATUS, TransactionOutput.new,
          VMStatus.new, VMStatus.with_sub_status]
      all_goals (subst h; simp [TransactionOutput.new, KEEP_STATUS, VMStatus.new] at hv)
    | BlockMetadata author =>
      exfalso
      simp only [execute_transaction] at h
      repeat' split at h
      all_goals
        simp_all [KEEP_STATUS, TransactionOutput.new, VMStatus.new]
      all_goals (subst h; simp [TransactionOutput.new, KEEP_STATUS, VMStatus.new] at hv)
    | StateSet p =>
      cases hap : s.applyFails with
      | false =>
        exfalso
        simp [execute_transaction, chainApply, hap] at h
        simp [← h, KEEP_STATUS, TransactionOutput.new, VMStatus.new] at hv
      | true =>
        simp [execute_transaction, chainApply, hap] at h
        have hv1 := hv
        rw [← h] at hv1
        simp [TransactionOutput.new, DISCARD_STATUS] at hv1
        exact ⟨⟨p, rfl⟩, rfl, hv1.symm⟩

/-- The empty backend with `apply` forced to fail. -/
def applyFailChain : ChainStateModel :=
  ⟨fun _ => none, fun _ => false, fun _ => false, fun _ => false, true⟩

/-- C4 witness: on a backend whose bulk-apply fails, a `StateSet` transaction
comes back as a normal output carrying `Discard(ABORTED, 10)`, with the
backend content untouched. -/
theorem claim4_stateset_discard_witness :
    execute_transaction applyFailChain (Transaction.StateSet (fun _ => none))
      = (applyFailChain, Except.ok (TransactionOutput.new [] 0 DISCARD_STATUS)) :=
  (claim4_stateset_discard.1 applyFailChain (fun _ => none)).2 rfl

/-- The empty backend whose `set` fails exactly at address 1. -/
def brokenSetChain : ChainStateModel :=
  ⟨fun _ => none, fun _ => false, fun a => a == 1, fun _ => false, false⟩

/-- A backend with the sender resource at address 1 whose `set` fails exactly
at address 1. -/
def mintSetFailChain : ChainStateModel :=
  ⟨fun a => if a = 1 then some (Blob.resource ⟨10, 5, 7⟩) else none,
   fun _ => false, fun a => a == 1, fun _ => false, false⟩

/-- C8: `add_write_set` drops backend failures — applying a write set whose
first `set` (at address 1) fails leaves address 1 unwritten, continues with
the remaining operations (address 2 does get written), and, returning unit,
reports no error to its caller. The failing `set` in the Mint path is, by
contrast, fatal to the transaction (its `unwrap` panics). -/
theorem claim8_add_write_set_swallows :
    (StateStore.add_write_set brokenSetChain
        [(1, WriteOp.Value (Blob.raw [1])), (2, WriteOp.Value (Blob.raw [2]))]).contents 1
      = none ∧
    (StateStore.add_write_set brokenSetChain
        [(1, WriteOp.Value (Blob.raw [1])), (2, WriteOp.Value (Blob.raw [2]))]).contents 2
      = some (Blob.raw [2]) ∧
    (execute_transaction mintSetFailChain (encode_mint_transaction 1 5)).2
      = Except.error VMError.panicked :=
  ⟨rfl, rfl, rfl⟩

end Starcoin
